import Mathlib

/-!
Verification of the audio resolution and playback pipeline of the
extThai flashcard application against its natural-language specification.

The definitions below are shallow embeddings of the TypeScript sources:

* `Playback`     — the client `AudioService` playback state machine
                   (`src/client/src/lib/audio.ts`, with the `part_009`
                   variant of `stopAllAudio` modelled separately);
* `ClientAudio`  — the client-side resolution logic: `generateAudio`,
                   `pollForAudioId`, `playAudio`, and the flashcard
                   component's `handlePlayAudio`;
* `ServerRoutes` — the server's `generateAudio` retry loop,
                   `pollForAudioCompletion`, the two audio-serving GET
                   routes, and the `/api/cards/generate` batch endpoint
                   (`src/unnamed/part_013`);
* `Batch`        — the client `DownloadService.downloadBatch` archive
                   pipeline (`src/unnamed/part_008`).
-/

namespace Playback

/-- Events of the playback state machine, at the granularity of the
`await` suspension points of `AudioService.playAudio`
(src/client/src/lib/audio.ts, lines 115-160), modelled for a browser
without speech-synthesis support (`this.speechSynthesis = null`), where
every play request goes through the asynchronous `generateAudio`
resolution before an HTML audio element is started.

* `playCall r` is the synchronous prefix of `playAudio`: the
  `stopAllAudio()` call at line 119 followed by the start of the
  (asynchronous) resolution of request `r`;
* `resolveArrive r` is the continuation at lines 131-151 that runs when
  request `r`'s resolution promise settles successfully: it assigns
  `this.currentAudio = audio` and calls `audio.play()` — with no check
  that `r` is still the most recent request;
* `stopAllCall` is an explicit `stopAllAudio()` call. -/
inductive Event where
  | playCall (r : Nat)
  | resolveArrive (r : Nat)
  | stopAllCall
deriving DecidableEq, Repr

/-- State of the `AudioService` singleton together with the audible DOM
audio elements.

* `playing` — the HTML audio elements currently sounding (one per
  request id; `audio.play()` adds an element, `audio.pause()` removes it);
* `current` — the `this.currentAudio` field (at most one reference);
* `synthActive` — whether a speech-synthesis utterance is queued/audible;
* `pending` — requests whose resolution promise has not yet settled. -/
structure AudioState where
  playing : List Nat
  current : Option Nat
  synthActive : Bool
  pending : List Nat
deriving DecidableEq, Repr

/-- Embedding of `AudioService.stopAllAudio` (audio.ts lines 40-52): it
pauses `this.currentAudio` (if any), nulls the reference, and cancels
speech synthesis.  Audio elements that are audible but no longer
referenced by `currentAudio` are NOT paused. -/
def stopAllState (s : AudioState) : AudioState :=
  { s with
    playing := match s.current with
      | some h => s.playing.erase h
      | none => s.playing
    current := none
    synthActive := false }

/-- Initial (idle) state: nothing audible, no current handle, no pending
resolution. -/
def init : AudioState := ⟨[], none, false, []⟩

/-- One atomic step of the playback machine (see `Event`). -/
def step (s : AudioState) : Event → AudioState
  | .playCall r =>
      let s' := stopAllState s
      { s' with pending := r :: s'.pending }
  | .resolveArrive r =>
      if s.pending.contains r then
        { s with
          pending := s.pending.erase r
          current := some r
          playing := r :: s.playing }
      else s
  | .stopAllCall => stopAllState s

/-- Run of the playback machine over a list of events. -/
def run (s : AudioState) : List Event → AudioState
  | [] => s
  | e :: es => run (step s e) es

/-- Trace in which every play request's resolution arrives before the
next play call is issued (the sequential, non-overlapping schedule). -/
def seqTrace (rs : List Nat) : List Event :=
  rs.flatMap fun r => [Event.playCall r, Event.resolveArrive r]

/-- Most recent play request of a trace: the argument of its last
`playCall` event, if any.  This is the "still-current request token"
the specification speaks of; the source code keeps no such token. -/
def lastRequest (tr : List Event) : Option Nat :=
  tr.foldl (fun acc e => match e with | .playCall r => some r | _ => acc) none

/-- States reachable along a sequential (non-overlapping) schedule:
either nothing is audible, or exactly the current handle is audible. -/
def SeqOK (s : AudioState) : Prop :=
  s.playing = [] ∨ ∃ h, s.playing = [h] ∧ s.current = some h

/-- State of the `part_009` variant of `AudioService`: the audible audio
elements, the `currentAudio` reference, and the ids held by
`htmlAudioCache`. -/
structure AudioState09 where
  audible : List Nat
  current : Option Nat
  cached : List Nat
deriving DecidableEq, Repr

/-- Embedding of the `part_009` variant of `stopAllAudio` (lines 27-57):
pauses the current element, pauses every cached element that is not
already paused, and clears the cache. -/
def stopAllAudio09 (s : AudioState09) : AudioState09 :=
  { audible := s.audible.filter fun h =>
      !(s.current == some h || s.cached.contains h)
    current := none
    cached := [] }

end Playback

namespace ClientAudio

/-- Reply of one status request to `GET /api/audio/:id` as observed by
the client polling loop: the job is done, still pending, reports the
terminal "Error" status, or the request itself throws. -/
inductive PollReply where
  | done
  | pending
  | error
  | throws
deriving DecidableEq, Repr

/-- Result of a polling loop: the resolved value (if any) and the number
of status requests the loop issued. -/
structure PollRun where
  result : Option String
  requests : Nat
deriving DecidableEq, Repr

/-- Embedding of the loop body of `AudioService.pollForAudioId`
(audio.ts lines 92-113).  Each iteration issues one status request.  A
`Done` reply returns the id.  An `Error` reply makes the code throw
`new Error("Audio generation failed")` — but that throw is raised inside
the loop's own `try` block and is caught by the `catch` at line 107,
which only logs, so the loop continues to the next attempt exactly as it
does for a `pending` reply (after the 1s wait) or a thrown request. -/
def pollGo (id : String) (env : Nat → PollReply) : Nat → Nat → PollRun
  | 0, issued => ⟨none, issued⟩
  | n + 1, issued =>
    match env issued with
    | .done => ⟨some id, issued + 1⟩
    | _ => pollGo id env n (issued + 1)

/-- Embedding of `AudioService.pollForAudioId` with its default bound of
10 attempts passed explicitly; returns `none` when the budget is
exhausted. -/
def pollForAudioId (id : String) (env : Nat → PollReply) (maxAttempts : Nat) : PollRun :=
  pollGo id env maxAttempts 0

/-- Network behaviour seen by one fresh (uncached) `generateAudio` call:
the reply to the `POST /api/audio/generate` submission (`some id` when
`generateResult.success && generateResult.id`, `none` for a failed or
throwing submission) and the stream of status-poll replies. -/
structure GenEnv where
  submit : Option String
  poll : Nat → PollReply

/-- Result of a client `generateAudio` call: the returned URL (if any),
the cache after the call, and the number of network requests issued
(submission plus status polls). -/
structure GenCallResult where
  url : Option String
  cache : List (String × String)
  networkCalls : Nat
deriving DecidableEq, Repr

/-- Embedding of `AudioService.generateAudio` (audio.ts lines 54-90):
the cache key is `text ++ "_" ++ language`; a cache hit returns the
cached proxy URL with no network traffic; otherwise the call submits a
generation request, polls up to 10 times, and on success caches and
returns the proxy URL `/api/audio/download/` ++ id. -/
def generateAudio (cache : List (String × String)) (text language : String)
    (env : GenEnv) : GenCallResult :=
  let cacheKey := text ++ "_" ++ language
  match cache.lookup cacheKey with
  | some url => ⟨some url, cache, 0⟩
  | none =>
    match env.submit with
    | none => ⟨none, cache, 1⟩
    | some id =>
      let pr := pollForAudioId id env.poll 10
      match pr.result with
      | some audioId =>
        let proxyUrl := "/api/audio/download/" ++ audioId
        ⟨some proxyUrl, (cacheKey, proxyUrl) :: cache, 1 + pr.requests⟩
      | none => ⟨none, cache, 1 + pr.requests⟩

/-- Cache evolution across a list of further `generateAudio` calls,
each given by a text, a language and a network environment. -/
def genEvolve (cache : List (String × String)) :
    List (String × String × GenEnv) → List (String × String)
  | [] => cache
  | (t, l, e) :: rest => genEvolve (generateAudio cache t l e).cache rest

/-- Embedding of the promise returned by
`AudioService.playWithSpeechSynthesis` (audio.ts lines 190-292): it
rejects exactly when `this.speechSynthesis` is null ("Speech synthesis
not supported", lines 192-195).  When synthesis is available the promise
always resolves: `onend` resolves, `onerror` resolves ("Don't reject,
just resolve to continue"), a throwing `speak` resolves, and the 8s
timeout resolves. -/
def playWithSpeechSynthesis (synthSupported : Bool) : Except String Unit :=
  if synthSupported then .ok () else .error "Speech synthesis not supported"

/-- Audible outcome of one `playAudio` call. -/
inductive PlaySourceOutcome where
  | synthSpoken
  | htmlAudio (url : String)
  | nothingPlayed
deriving DecidableEq, Repr

/-- Observable result of `AudioService.playAudio`: which source ended up
audible, whether an error was surfaced (thrown) to the caller, and
whether the on-demand generation chain was consulted. -/
structure PlayAudioResult where
  source : PlaySourceOutcome
  raised : Bool
  genConsulted : Bool
deriving DecidableEq, Repr

/-- Embedding of `AudioService.playAudio` (audio.ts lines 115-160).
Speech synthesis is tried FIRST ("for faster response", line 122); only
when `playWithSpeechSynthesis` rejects (synthesis unsupported) does the
catch block consult `generateAudio`; `genUrl` is that call's result and
`playOk` models whether `audio.play()` succeeds.  Every failure of the
fallback chain is caught and swallowed ("Silently fail rather than
throwing error", line 157), so `raised` is false on every path. -/
def playAudio (synthSupported : Bool) (genUrl : Option String) (playOk : Bool) :
    PlayAudioResult :=
  match playWithSpeechSynthesis synthSupported with
  | .ok _ => ⟨.synthSpoken, false, false⟩
  | .error _ =>
    match genUrl with
    | some url =>
      if playOk then ⟨.htmlAudio url, false, true⟩
      else ⟨.nothingPlayed, false, true⟩
    | none => ⟨.nothingPlayed, false, true⟩

/-- Pre-generated audio asset paths recorded on a card
(`card.word_audio` / `card.example_audio`). -/
structure CardAssets where
  word_audio : Option String
  example_audio : Option String
deriving Repr

/-- Kind of audio requested by the flashcard component. -/
inductive PlayKind where
  | word
  | example
deriving DecidableEq, Repr

/-- Locally stored asset path consulted by `handlePlayAudio` for the
requested kind. -/
def localAssetFor (card : CardAssets) : PlayKind → Option String
  | .word => card.word_audio
  | .example => card.example_audio

/-- Embedding of the JS `path.replace('generated/audio/', '')` applied
to recorded asset paths (which always carry that leading directory),
and of the anchored regex replace of the server route; written on the
underlying character list so that it evaluates inside the kernel. -/
def stripAudioDir (p : String) : String :=
  if p.data.take 16 = "generated/audio/".data then ⟨p.data.drop 16⟩ else p

/-- Outcome of the flashcard's `handlePlayAudio` as seen by the user. -/
inductive HandleOutcome where
  | playedUrl (url : String)
  | errorToast
deriving DecidableEq, Repr

/-- Embedding of `handlePlayAudio` (flashcard.tsx lines 28-65) returning
the outcome together with whether `audioService.generateAudio` was
consulted.  If the card has a recorded asset for the requested kind the
handler plays `/api/audio/generated/` ++ the stripped path and never
calls the external generation service; otherwise it falls back to
`generateAudio` (`genUrl` is its result); a null URL or a failed
`audio.play()` (`playOk`) is caught and reported to the user as an
error toast. -/
def handlePlayAudio (card : CardAssets) (kind : PlayKind)
    (genUrl : Option String) (playOk : Bool) : HandleOutcome × Bool :=
  match localAssetFor card kind with
  | some p =>
    (if playOk then .playedUrl ("/api/audio/generated/" ++ stripAudioDir p)
     else .errorToast, false)
  | none =>
    match genUrl with
    | some url => (if playOk then .playedUrl url else .errorToast, true)
    | none => (.errorToast, true)

end ClientAudio

namespace ServerRoutes

/-- Outcome of one full submit-poll-download cycle of the server-side
`generateAudio` helper (part_013 lines 427-481), collapsing the steps of
the cycle into the way it terminates:

* `throws` — some step of the cycle threw (network error); this is the
  only outcome the `catch (apiError)` block at line 475 sees;
* `submitNotOk` — the submission returned non-2xx (line 472 branch);
* `submitNoId` — the submission succeeded but `result.success && id`
  was false;
* `pollTimeout` — `pollForAudioCompletion` returned null;
* `downloadNotOk` — the download request returned non-2xx;
* `payload n` — the download produced an audio payload of `n` bytes,
  which line 460 accepts only when `n > 1000`. -/
inductive CycleOutcome where
  | throws
  | submitNotOk
  | submitNoId
  | pollTimeout
  | downloadNotOk
  | payload (bytes : Nat)
deriving DecidableEq, Repr

/-- A cycle succeeds exactly when it downloads a payload strictly larger
than the 1000-byte minimum (part_013 line 460). -/
def cycleSuccess : CycleOutcome → Bool
  | .payload n => decide (1000 < n)
  | _ => false

/-- Whether the cycle failed by throwing (the only failure mode that
reaches the catch block with the 2s backoff, part_013 lines 475-480). -/
def cycleThrew : CycleOutcome → Bool
  | .throws => true
  | _ => false

/-- Result of a server `generateAudio` call: the returned storage path
(`none` models the final `throw` after the retry budget, line 484), the
number of submit-poll-download cycles started, the files written, and
the backoff sleeps (in ms) performed between cycles. -/
structure GenRunResult where
  path : Option String
  submits : Nat
  writes : List String
  sleeps : List Nat
deriving DecidableEq, Repr

/-- Loop of `generateAudio` (part_013 lines 427-481): `remaining` cycles
are left out of the budget of 3, `cycleIdx` cycles have already run.  A
successful cycle writes the file and returns its relative path; a cycle
that threw is followed by a 2000ms backoff, but only when another
attempt remains (`attempt < 3`, line 477); all other failing cycles
continue immediately with no backoff. -/
def generateAudioGo (filename : String) (env : Nat → CycleOutcome) :
    Nat → Nat → List Nat → GenRunResult
  | 0, cycleIdx, sleeps => ⟨none, cycleIdx, [], sleeps⟩
  | rem + 1, cycleIdx, sleeps =>
    let o := env cycleIdx
    if cycleSuccess o then
      ⟨some ("generated/audio/" ++ filename), cycleIdx + 1,
       ["generated/audio/" ++ filename], sleeps⟩
    else
      let sleeps' := if cycleThrew o && decide (0 < rem) then sleeps ++ [2000] else sleeps
      generateAudioGo filename env rem (cycleIdx + 1) sleeps'

/-- Embedding of the server `generateAudio` helper (part_013 lines
418-490) with its hard-coded budget of 3 cycles. -/
def generateAudio (filename : String) (env : Nat → CycleOutcome) : GenRunResult :=
  generateAudioGo filename env 3 0 []

/-- Reply of one status request of the server-side polling loop
`pollForAudioCompletion` (part_013 lines 493-518): done with the
provider's result location, still pending, the terminal "Error" status,
a non-2xx status response, or a thrown request. -/
inductive ServerPollReply where
  | done (location : String)
  | pending
  | error
  | notOk
  | throws
deriving DecidableEq, Repr

/-- Result of the server polling loop: the provider location (if any)
and the number of status requests issued. -/
structure ServerPollRun where
  location : Option String
  requests : Nat
deriving DecidableEq, Repr

/-- Embedding of the loop of `pollForAudioCompletion` (part_013 lines
494-515).  A `Done` reply returns the location.  An `Error` reply makes
the code throw (line 506) — but the throw is inside the loop's own `try`
and is caught by the `catch` at line 512, which only warns, so the loop
keeps issuing status requests, exactly as for `pending`, non-2xx and
thrown requests. -/
def serverPollGo (env : Nat → ServerPollReply) : Nat → Nat → ServerPollRun
  | 0, issued => ⟨none, issued⟩
  | n + 1, issued =>
    match env issued with
    | .done loc => ⟨some loc, issued + 1⟩
    | _ => serverPollGo env n (issued + 1)

/-- Embedding of `pollForAudioCompletion`; `generateAudio` calls it with
`maxAttempts = 20` (part_013 line 451). -/
def pollForAudioCompletion (env : Nat → ServerPollReply) (maxAttempts : Nat) :
    ServerPollRun :=
  serverPollGo env maxAttempts 0

/-- HTTP response of an audio-serving route, reduced to what the claims
are about: 404, or 200 with a payload of the file's size in bytes. -/
inductive ServeResponse where
  | notFound
  | served (size : Nat)
deriving DecidableEq, Repr

/-- Embedding of `GET /api/audio/generated/:filename` (part_013 lines
21-40): 404 when the file does not exist, otherwise the file is served
whatever its size — this route performs NO minimum-size validation.
The file system is modelled as a map from the filename (relative to
`generated/audio/`) to the stored file's size. -/
def generatedAudioRoute (fileSys : String → Option Nat) (filename : String) :
    ServeResponse :=
  match fileSys filename with
  | none => .notFound
  | some size => .served size

/-- Embedding of `GET /api/audio/:filepath(*)` (part_013 lines 344-390):
the leading `generated/audio/` is stripped from the request path (the
anchored regex replace at line 350), a missing file gives 404, and a
file smaller than 1000 bytes also gives 404 (lines 366-374) instead of
being served. -/
def audioFileRoute (fileSys : String → Option Nat) (filepath : String) :
    ServeResponse :=
  match fileSys (ClientAudio.stripAudioDir filepath) with
  | none => .notFound
  | some size => if size < 1000 then .notFound else .served size

/-- Per-card environment of `POST /api/cards/generate` (part_013 lines
239-341): whether the card exists in storage and whether word and
example audio generation succeed.  Card-image generation (line 305) is
modelled as succeeding, as in the claim's scenario where only audio
generation fails. -/
structure CardGenEnv where
  found : Bool
  wordOk : Bool
  exampleOk : Bool

/-- Per-card entry of the `results` array returned by
`POST /api/cards/generate`: the card id, the reported `success` flag,
and the number of error messages attached to the entry. -/
structure CardGenResult where
  cardId : Nat
  success : Bool
  errorCount : Nat
deriving DecidableEq, Repr

/-- Embedding of the `POST /api/cards/generate` loop (part_013 lines
249-333): each failing audio generation is caught (lines 290-302),
recorded in the per-card errors, and the loop continues with the next
card; `success` is reported only when both word and example audio
generated (line 322). -/
def cardsGenerate (ids : List Nat) (env : Nat → CardGenEnv) : List CardGenResult :=
  ids.map fun id =>
    let e := env id
    if e.found then
      { cardId := id
        success := e.wordOk && e.exampleOk
        errorCount := (if e.wordOk then 0 else 1) + (if e.exampleOk then 0 else 1) }
    else { cardId := id, success := false, errorCount := 1 }

end ServerRoutes

namespace Batch

/-- A card as consumed by the client batch export: `thai` is used in the
archive filenames and `exampleText` models the card's `example` field
sent to audio generation. -/
structure BatchCard where
  thai : String
  exampleText : String
deriving DecidableEq, Repr

/-- Observable outcome of `DownloadService.downloadBatch` (part_008
lines 58-130): the image and audio entries of the produced ZIP archive,
the progress status strings emitted through `onProgress`, and the
failure reports delivered to the caller.  The function returns
`Promise<void>` and its per-card audio `catch` (lines 106-108) only
writes to the console, so no failure information ever reaches the
caller: `reportedFailures` is empty by construction of the code. -/
structure BatchOutcome where
  images : List String
  audios : List String
  progressLog : List String
  reportedFailures : List String
deriving DecidableEq, Repr

/-- Embedding of `DownloadService.downloadBatch`: cards are processed
sequentially; every card contributes its image (line 89); the example
audio is attempted inside a try/catch and contributes an archive entry
only when generation (and the fetch of the generated URL) succeeds
(`audioOk`); an audio failure is logged and the loop continues. -/
def downloadBatch (cards : List BatchCard) (audioOk : BatchCard → Bool) :
    BatchOutcome :=
  { images := cards.enum.map fun ic =>
      "card_" ++ toString (ic.1 + 1) ++ "_" ++ ic.2.thai ++ ".png"
    audios := (cards.enum.filter fun ic => audioOk ic.2).map fun ic =>
      "card_" ++ toString (ic.1 + 1) ++ "_example_" ++ ic.2.thai ++ ".mp3"
    progressLog :=
      (cards.enum.flatMap fun ic =>
        ["生成卡片 " ++ toString (ic.1 + 1) ++ " 图片...",
         "完成卡片 " ++ toString (ic.1 + 1) ++ " 图片",
         "生成卡片 " ++ toString (ic.1 + 1) ++ " 例句语音..."]) ++
      ["正在打包文件...", "下载完成！"]
    reportedFailures := [] }

end Batch

namespace Playback

/-- Running a concatenation of traces runs the pieces in sequence. -/
theorem run_append (s : AudioState) (t u : List Event) :
    run s (t ++ u) = run (run s t) u := by
  induction t generalizing s with
  | nil => rfl
  | cons e es ih => exact ih (step s e)

/-- A sequentially reachable state has at most one audible source. -/
theorem seqOK_len {s : AudioState} (hs : SeqOK s) : s.playing.length ≤ 1 := by
  rcases hs with h | ⟨a, hp, _⟩
  · simp [h]
  · simp [hp]

/-- From a sequentially reachable state, `stopAllAudio` silences
everything. -/
theorem stopAll_playing_nil {s : AudioState} (hs : SeqOK s) :
    (stopAllState s).playing = [] := by
  rcases hs with h | ⟨a, hp, hc⟩
  · cases hcur : s.current <;> simp [stopAllState, hcur, h]
  · simp [stopAllState, hc, hp]

/-- Effect of one complete play-then-resolve block from a sequentially
reachable state: exactly the new request is audible and current. -/
theorem run_block (s : AudioState) (hs : SeqOK s) (r : Nat) :
    run s [Event.playCall r, Event.resolveArrive r] =
      ⟨[r], some r, false, s.pending⟩ := by
  have h1 : step s (.playCall r) = ⟨[], none, false, r :: s.pending⟩ := by
    have h0 := stopAll_playing_nil hs
    rcases s with ⟨pl, cur, sy, pe⟩
    simp only [step, stopAllState] at h0 ⊢
    simp_all
  show run (step s (.playCall r)) [Event.resolveArrive r] = _
  rw [h1]
  simp [run, step, List.contains_cons]

/-- Sequential schedules preserve the `SeqOK` invariant. -/
theorem seq_run_ok : ∀ (rs : List Nat) (s : AudioState), SeqOK s →
    SeqOK (run s (seqTrace rs)) := by
  intro rs
  induction rs with
  | nil => intro s hs; exact hs
  | cons r rs ih =>
    intro s hs
    have hseq : seqTrace (r :: rs) =
        [Event.playCall r, Event.resolveArrive r] ++ seqTrace rs := by
      simp [seqTrace]
    rw [hseq, run_append, run_block s hs r]
    exact ih _ (Or.inr ⟨r, rfl, rfl⟩)

/-- Along every prefix of a sequential schedule, at most one source is
audible. -/
theorem seq_prefix_len : ∀ (rs : List Nat) (s : AudioState), SeqOK s →
    ∀ t u : List Event, t ++ u = seqTrace rs → (run s t).playing.length ≤ 1 := by
  intro rs
  induction rs with
  | nil =>
    intro s hs t u h
    have ht : t = [] := by
      cases t with
      | nil => rfl
      | cons e es => simp [seqTrace] at h
    subst ht
    exact seqOK_len hs
  | cons r rs ih =>
    intro s hs t u h
    have hseq : seqTrace (r :: rs) =
        Event.playCall r :: Event.resolveArrive r :: seqTrace rs := by
      simp [seqTrace]
    rw [hseq] at h
    cases t with
    | nil => exact seqOK_len hs
    | cons e1 t1 =>
      rw [List.cons_append] at h
      injection h with he1 h1
      subst he1
      cases t1 with
      | nil =>
        show (run (step s (.playCall r)) []).playing.length ≤ 1
        have h0 := stopAll_playing_nil hs
        simp only [run, step]
        simp [h0]
      | cons e2 t2 =>
        rw [List.cons_append] at h1
        injection h1 with he2 h2
        subst he2
        have hb : run s (Event.playCall r :: Event.resolveArrive r :: t2)
            = run (⟨[r], some r, false, s.pending⟩ : AudioState) t2 := by
          rw [show Event.playCall r :: Event.resolveArrive r :: t2
              = [Event.playCall r, Event.resolveArrive r] ++ t2 from rfl,
            run_append, run_block s hs r]
        rw [hb]
        exact ih _ (Or.inr ⟨r, rfl, rfl⟩) t2 u h2

/-- After a sequential schedule, exactly the last request's source is
audible and current. -/
theorem seq_run_final (rs : List Nat) (r : Nat) (s : AudioState) (hs : SeqOK s) :
    (run s (seqTrace (rs ++ [r]))).playing = [r] ∧
    (run s (seqTrace (rs ++ [r]))).current = some r := by
  have hseq : seqTrace (rs ++ [r]) =
      seqTrace rs ++ [Event.playCall r, Event.resolveArrive r] := by
    simp [seqTrace]
  rw [hseq, run_append, run_block _ (seq_run_ok rs s hs) r]
  exact ⟨rfl, rfl⟩

end Playback

/-- Claim C1, counterexample.  The claim states that for every sequence
of play requests at most one audio source is ever audible.  This is
false for the code: in the trace where requests 0 and 1 are both issued
(each performing `stopAllAudio` first) and their resolutions then both
arrive, `resolveArrive 1` starts its audio element without stopping the
element started by `resolveArrive 0`, so two sources sound
simultaneously. -/
theorem playback_overlap_free_refuted :
    ¬ ∀ t : List Playback.Event,
      (Playback.run Playback.init t).playing.length ≤ 1 :=
  fun h => absurd
    (h [.playCall 0, .playCall 1, .resolveArrive 0, .resolveArrive 1])
    (by decide)

/-- Claim C1, amended.  Each play call performs `stopAllAudio` first
(clearing the current handle and cancelling speech synthesis), and when
every play request's resolution arrives before the next play call is
issued, at most one source is audible at every instant of the schedule
and, after the last request, exactly the last request's source is
audible. -/
theorem playback_sequential_last_wins :
    ∀ (rs : List Nat) (r : Nat) (t u : List Playback.Event),
    t ++ u = Playback.seqTrace (rs ++ [r]) →
    ((Playback.run Playback.init t).playing.length ≤ 1 ∧
     (Playback.run Playback.init (Playback.seqTrace (rs ++ [r]))).playing = [r] ∧
     ∀ (s : Playback.AudioState) (q : Nat),
       (Playback.step s (.playCall q)).current = none ∧
       (Playback.step s (.playCall q)).synthActive = false) := by
  intro rs r t u h
  refine ⟨Playback.seq_prefix_len (rs ++ [r]) Playback.init (Or.inl rfl) t u h,
    (Playback.seq_run_final rs r Playback.init (Or.inl rfl)).1, ?_⟩
  intro s q
  exact ⟨rfl, rfl⟩

/-- Witness for the amended C1 theorem at the concrete schedule of play
requests 0, 1, 2. -/
theorem playback_sequential_last_wins_witness :
    (Playback.run Playback.init
      (Playback.seqTrace ([0, 1] ++ [2]))).playing.length ≤ 1 ∧
    (Playback.run Playback.init (Playback.seqTrace ([0, 1] ++ [2]))).playing = [2] :=
  ⟨(playback_sequential_last_wins [0, 1] 2
      (Playback.seqTrace ([0, 1] ++ [2])) [] (by simp)).1,
   (playback_sequential_last_wins [0, 1] 2
      (Playback.seqTrace ([0, 1] ++ [2])) [] (by simp)).2.1⟩

/-- Claim C2, counterexample.  The claim states that a resolution
arriving for a request that is no longer the most recent one is
discarded and never produces an audible effect.  False for the code:
after play calls for requests 0 and then 1, request 1 is the most
recent, yet the arrival of request 0's resolution changes the audible
set (it starts request 0's audio element). -/
theorem stale_result_discarded_refuted :
    ¬ ∀ (tr : List Playback.Event) (r : Nat),
      Playback.lastRequest tr ≠ some r →
      (Playback.run Playback.init (tr ++ [Playback.Event.resolveArrive r])).playing
        = (Playback.run Playback.init tr).playing :=
  fun h => absurd (h [.playCall 0, .playCall 1] 0 (by decide)) (by decide)

/-- Claim C2, amended.  A resolution arriving for any still-pending
request — stale or not — is started unconditionally: it becomes the
current handle and its source becomes audible; the code checks no
"still-current request" token. -/
theorem stale_result_started_unconditionally :
    ∀ (tr : List Playback.Event) (r : Nat),
    r ∈ (Playback.run Playback.init tr).pending →
    (Playback.run Playback.init
        (tr ++ [Playback.Event.resolveArrive r])).current = some r ∧
    (Playback.run Playback.init
        (tr ++ [Playback.Event.resolveArrive r])).playing
      = r :: (Playback.run Playback.init tr).playing := by
  intro tr r h
  rw [Playback.run_append]
  constructor <;> simp [Playback.run, Playback.step, h]

/-- Witness for the amended C2 theorem: request 5 is superseded by
request 7, yet its late resolution still starts. -/
theorem stale_result_started_unconditionally_witness :
    (Playback.run Playback.init
      ([Playback.Event.playCall 5, Playback.Event.playCall 7]
        ++ [Playback.Event.resolveArrive 5])).current = some 5 ∧
    (Playback.run Playback.init
      ([Playback.Event.playCall 5, Playback.Event.playCall 7]
        ++ [Playback.Event.resolveArrive 5])).playing
      = 5 :: (Playback.run Playback.init
          [Playback.Event.playCall 5, Playback.Event.playCall 7]).playing :=
  stale_result_started_unconditionally
    [Playback.Event.playCall 5, Playback.Event.playCall 7] 5 (by decide)

/-- Claim C3, counterexample.  The claim states the fixed resolution
order: local asset, then on-demand generation, then speech synthesis,
a later source consulted only after the earlier ones fail.  False for
the code: `AudioService.playAudio` tries speech synthesis FIRST, so it
speaks via synthesis even when on-demand generation would have
succeeded. -/
theorem resolution_order_refuted :
    ¬ ∀ (genUrl : Option String) (playOk : Bool),
      (ClientAudio.playAudio true genUrl playOk).source = .synthSpoken →
      genUrl = none :=
  fun h => Option.noConfusion (h (some "/api/audio/download/x") true rfl)

/-- Claim C3, amended.  The flashcard's `handlePlayAudio` tries the
locally stored pre-generated asset first and consults on-demand
generation only when the card has no recorded asset for the requested
kind — and it never falls back to speech synthesis.
`AudioService.playAudio` instead tries speech synthesis first and
consults on-demand generation only when speech synthesis is
unavailable. -/
theorem resolution_order_actual :
    (∀ (card : ClientAudio.CardAssets) (kind : ClientAudio.PlayKind)
        (g : Option String) (p : Bool) (url : String),
      ClientAudio.localAssetFor card kind = some url →
      ClientAudio.handlePlayAudio card kind g p =
        (if p then .playedUrl ("/api/audio/generated/" ++ ClientAudio.stripAudioDir url)
         else .errorToast, false)) ∧
    (∀ card kind (u : String) (p : Bool),
      ClientAudio.localAssetFor card kind = none →
      ClientAudio.handlePlayAudio card kind (some u) p =
        (if p then .playedUrl u else .errorToast, true)) ∧
    (∀ card kind (p : Bool),
      ClientAudio.localAssetFor card kind = none →
      ClientAudio.handlePlayAudio card kind none p = (.errorToast, true)) ∧
    (∀ (g : Option String) (p : Bool),
      ClientAudio.playAudio true g p = ⟨.synthSpoken, false, false⟩) ∧
    (∀ (u : String) (p : Bool),
      ClientAudio.playAudio false (some u) p =
        ⟨if p then .htmlAudio u else .nothingPlayed, false, true⟩) ∧
    (∀ p : Bool, ClientAudio.playAudio false none p = ⟨.nothingPlayed, false, true⟩) := by
  refine ⟨?_, ?_, ?_, fun g p => rfl, fun u p => by cases p <;> rfl, fun p => rfl⟩
  · intro card kind g p url h
    simp [ClientAudio.handlePlayAudio, h]
  · intro card kind u p h
    simp [ClientAudio.handlePlayAudio, h]
  · intro card kind p h
    simp [ClientAudio.handlePlayAudio, h]

/-- Witness for the amended C3 theorem: a card with a recorded word
asset plays it without consulting generation; a card without one falls
back to the generated URL. -/
theorem resolution_order_actual_witness :
    ClientAudio.handlePlayAudio ⟨some "generated/audio/w.mp3", none⟩ .word none true
      = (.playedUrl ("/api/audio/generated/"
          ++ ClientAudio.stripAudioDir "generated/audio/w.mp3"), false) ∧
    ClientAudio.handlePlayAudio ⟨none, none⟩ .word (some "/u") true
      = (.playedUrl "/u", true) :=
  ⟨resolution_order_actual.1 ⟨some "generated/audio/w.mp3", none⟩ .word none true
      "generated/audio/w.mp3" rfl,
   resolution_order_actual.2.1 ⟨none, none⟩ .word "/u" true rfl⟩

/-- Claim C4, counterexample.  The claim states that `playAudio`
surfaces an error exactly when no playback capability exists at all.
False for the code: with speech synthesis unsupported and generation
failing — no capability at all — `playAudio` still surfaces nothing
("Silently fail rather than throwing error"). -/
theorem error_iff_no_capability_refuted :
    ¬ ∀ (synthSupported : Bool) (genUrl : Option String) (playOk : Bool),
      ((ClientAudio.playAudio synthSupported genUrl playOk).raised = true ↔
        (synthSupported = false ∧ genUrl = none)) :=
  fun h => absurd ((h false none true).mpr ⟨rfl, rfl⟩) (by decide)

/-- Claim C4, amended.  `playAudio` never surfaces an error to its
caller on any path — including total absence of playback capability —
and the inner `playWithSpeechSynthesis` promise rejects exactly when
speech synthesis is unsupported. -/
theorem playAudio_never_raises :
    (∀ (sa : Bool) (g : Option String) (p : Bool),
      (ClientAudio.playAudio sa g p).raised = false) ∧
    (∀ sa : Bool,
      ClientAudio.playWithSpeechSynthesis sa
          = .error "Speech synthesis not supported" ↔ sa = false) := by
  constructor
  · intro sa g p
    cases sa
    · cases g <;> cases p <;> rfl
    · rfl
  · intro sa
    cases sa <;> simp [ClientAudio.playWithSpeechSynthesis]

/-- Witness for the amended C4 theorem at the no-capability input. -/
theorem playAudio_never_raises_witness :
    (ClientAudio.playAudio false none true).raised = false ∧
    ClientAudio.playWithSpeechSynthesis false
      = .error "Speech synthesis not supported" :=
  ⟨playAudio_never_raises.1 false none true,
   (playAudio_never_raises.2 false).mpr rfl⟩

/-- Closed-form characterization of the server `generateAudio` retry
loop in terms of its three cycle outcomes. -/
theorem serverGenerateAudio_char (fn : String) (env : Nat → ServerRoutes.CycleOutcome) :
    ServerRoutes.generateAudio fn env =
      if ServerRoutes.cycleSuccess (env 0) then
        ⟨some ("generated/audio/" ++ fn), 1, ["generated/audio/" ++ fn], []⟩
      else if ServerRoutes.cycleSuccess (env 1) then
        ⟨some ("generated/audio/" ++ fn), 2, ["generated/audio/" ++ fn],
          if ServerRoutes.cycleThrew (env 0) then [2000] else []⟩
      else if ServerRoutes.cycleSuccess (env 2) then
        ⟨some ("generated/audio/" ++ fn), 3, ["generated/audio/" ++ fn],
          (if ServerRoutes.cycleThrew (env 0) then [2000] else []) ++
          (if ServerRoutes.cycleThrew (env 1) then [2000] else [])⟩
      else
        ⟨none, 3, [],
          (if ServerRoutes.cycleThrew (env 0) then [2000] else []) ++
          (if ServerRoutes.cycleThrew (env 1) then [2000] else [])⟩ := by
  cases h0 : ServerRoutes.cycleSuccess (env 0) <;>
  cases h1 : ServerRoutes.cycleSuccess (env 1) <;>
  cases h2 : ServerRoutes.cycleSuccess (env 2) <;>
  cases t0 : ServerRoutes.cycleThrew (env 0) <;>
  cases t1 : ServerRoutes.cycleThrew (env 1) <;>
  simp [ServerRoutes.generateAudio, ServerRoutes.generateAudioGo, h0, h1, h2, t0, t1]

/-- Claim C5, counterexample.  The claim states a fixed 2-second backoff
between failed submit-poll-download cycles.  False for the code: the 2s
backoff sits in the catch block only, so a cycle that fails without
throwing — e.g. a downloaded payload of 500 bytes, below the minimum —
is followed immediately by the next cycle: three such failed cycles
sleep 0 times, not twice. -/
theorem backoff_between_failed_cycles_refuted :
    ¬ ∀ (fn : String) (env : Nat → ServerRoutes.CycleOutcome),
      2 ≤ (ServerRoutes.generateAudio fn env).submits →
      (ServerRoutes.generateAudio fn env).sleeps.length
        = (ServerRoutes.generateAudio fn env).submits - 1 :=
  fun h => absurd (h "f.mp3" (fun _ => .payload 500) (by decide)) (by decide)

/-- Claim C5, amended.  The server `generateAudio` performs at most 3
submit-poll-download cycles; a path is written and returned exactly when
some cycle downloads a payload above 1000 bytes (a payload at or below
1000 bytes is a failure); and the 2-second backoff occurs only after a
cycle that failed by throwing, never after a cycle that failed by a
non-2xx response, a poll timeout, or a too-small payload. -/
theorem serverGenerateAudio_retry_budget :
    ∀ (fn : String) (env : Nat → ServerRoutes.CycleOutcome),
    (ServerRoutes.generateAudio fn env).submits ≤ 3 ∧
    ((ServerRoutes.generateAudio fn env).path = some ("generated/audio/" ++ fn) ↔
      (ServerRoutes.cycleSuccess (env 0) || ServerRoutes.cycleSuccess (env 1) ||
        ServerRoutes.cycleSuccess (env 2)) = true) ∧
    (ServerRoutes.generateAudio fn env).writes
      = (if ServerRoutes.cycleSuccess (env 0) || ServerRoutes.cycleSuccess (env 1) ||
            ServerRoutes.cycleSuccess (env 2)
         then ["generated/audio/" ++ fn] else []) ∧
    (ServerRoutes.generateAudio fn env).sleeps
      = (if ServerRoutes.cycleSuccess (env 0) then []
         else (if ServerRoutes.cycleThrew (env 0) then [2000] else []) ++
           (if ServerRoutes.cycleSuccess (env 1) then []
            else if ServerRoutes.cycleThrew (env 1) then [2000] else [])) ∧
    (∀ n : Nat, n ≤ 1000 →
      (ServerRoutes.generateAudio fn
          (fun _ => ServerRoutes.CycleOutcome.payload n)).path = none) := by
  intro fn env
  refine ⟨?_, ?_, ?_, ?_, ?_⟩
  · rw [serverGenerateAudio_char]
    cases h0 : ServerRoutes.cycleSuccess (env 0) <;>
    cases h1 : ServerRoutes.cycleSuccess (env 1) <;>
    cases h2 : ServerRoutes.cycleSuccess (env 2) <;> simp
  · rw [serverGenerateAudio_char]
    cases h0 : ServerRoutes.cycleSuccess (env 0) <;>
    cases h1 : ServerRoutes.cycleSuccess (env 1) <;>
    cases h2 : ServerRoutes.cycleSuccess (env 2) <;> simp
  · rw [serverGenerateAudio_char]
    cases h0 : ServerRoutes.cycleSuccess (env 0) <;>
    cases h1 : ServerRoutes.cycleSuccess (env 1) <;>
    cases h2 : ServerRoutes.cycleSuccess (env 2) <;> simp
  · rw [serverGenerateAudio_char]
    cases h0 : ServerRoutes.cycleSuccess (env 0) <;>
    cases h1 : ServerRoutes.cycleSuccess (env 1) <;>
    cases h2 : ServerRoutes.cycleSuccess (env 2) <;> simp
  · intro n hn
    have hs : ServerRoutes.cycleSuccess (.payload n) = false := by
      simp [ServerRoutes.cycleSuccess]
      omega
    rw [serverGenerateAudio_char]
    simp [hs]

/-- Witness for the amended C5 theorem: a 5000-byte payload succeeds on
the first cycle; a 500-byte payload fails all three cycles. -/
theorem serverGenerateAudio_retry_budget_witness :
    (ServerRoutes.generateAudio "f.mp3"
        (fun _ => ServerRoutes.CycleOutcome.payload 5000)).path
      = some ("generated/audio/" ++ "f.mp3") ∧
    (ServerRoutes.generateAudio "f.mp3"
        (fun _ => ServerRoutes.CycleOutcome.payload 500)).path = none :=
  ⟨(serverGenerateAudio_retry_budget "f.mp3"
      (fun _ => ServerRoutes.CycleOutcome.payload 5000)).2.1.mpr (by decide),
   (serverGenerateAudio_retry_budget "f.mp3"
      (fun _ => ServerRoutes.CycleOutcome.payload 500)).2.2.2.2 500 (by decide)⟩

/-- Claim C6, demonstration of the code bug.  The claim (and the code's
own thrown "generation failed" error) intend the "Error" status to be a
terminal polling state after which no further status requests are
issued.  In both polling loops the throw is caught by the same loop's
own catch block, so a job whose every status poll answers "Error" is
polled the full 10 times on the client and the full 20 times on the
server before resolving as failed; the bounded-attempts half of the
claim does hold: an always-pending job also resolves as failed. -/
theorem poll_error_status_keeps_polling :
    ClientAudio.pollForAudioId "job" (fun _ => .error) 10 = ⟨none, 10⟩ ∧
    ServerRoutes.pollForAudioCompletion (fun _ => .error) 20 = ⟨none, 20⟩ ∧
    ClientAudio.pollForAudioId "job" (fun _ => .pending) 10 = ⟨none, 10⟩ :=
  ⟨rfl, rfl, rfl⟩

/-- Claim C7, counterexample.  The claim states that every GET route for
generated audio responds 404 for a file below the minimum-size threshold
and never serves such a payload.  False for the code: the
`/api/audio/generated/:filename` route checks only existence, so it
serves a stored 5-byte file with a 200 response. -/
theorem min_size_before_serving_refuted :
    ¬ ∀ (fileSys : String → Option Nat) (name : String) (sz : Nat),
      (ServerRoutes.generatedAudioRoute fileSys name = .served sz ∨
       ServerRoutes.audioFileRoute fileSys name = .served sz) → 1000 ≤ sz :=
  fun h => absurd
    (h (fun f => if f = "tiny.mp3" then some 5 else none) "tiny.mp3" 5
      (Or.inl (by decide)))
    (by decide)

/-- Claim C7, amended.  The `/api/audio/:filepath` route never serves a
payload below 1000 bytes and responds 404 both for a missing file and
for a too-small file; the `/api/audio/generated/:filename` route
responds 404 exactly when the file is missing and serves an existing
file of any size, with no minimum-size check. -/
theorem audio_routes_size_check :
    (∀ (fileSys : String → Option Nat) (p : String) (sz : Nat),
      ServerRoutes.audioFileRoute fileSys p = .served sz → 1000 ≤ sz) ∧
    (∀ fileSys p, fileSys (ClientAudio.stripAudioDir p) = none →
      ServerRoutes.audioFileRoute fileSys p = .notFound) ∧
    (∀ fileSys p sz, fileSys (ClientAudio.stripAudioDir p) = some sz → sz < 1000 →
      ServerRoutes.audioFileRoute fileSys p = .notFound) ∧
    (∀ fileSys n,
      ServerRoutes.generatedAudioRoute fileSys n = .notFound ↔ fileSys n = none) := by
  refine ⟨?_, ?_, ?_, ?_⟩
  · intro fileSys p sz h
    cases hf : fileSys (ClientAudio.stripAudioDir p) with
    | none => simp [ServerRoutes.audioFileRoute, hf] at h
    | some s0 =>
      simp only [ServerRoutes.audioFileRoute, hf] at h
      rcases Nat.lt_or_ge s0 1000 with hlt | hge
      · rw [if_pos hlt] at h; cases h
      · rw [if_neg (Nat.not_lt.mpr hge)] at h
        injection h with hsz
        omega
  · intro fileSys p hf
    simp [ServerRoutes.audioFileRoute, hf]
  · intro fileSys p sz hf hlt
    simp [ServerRoutes.audioFileRoute, hf, hlt]
  · intro fileSys n
    cases hf : fileSys n <;> simp [ServerRoutes.generatedAudioRoute, hf]

/-- Witness for the amended C7 theorem on a concrete file system with a
5000-byte stored file and no other files. -/
theorem audio_routes_size_check_witness :
    1000 ≤ 5000 ∧
    ServerRoutes.audioFileRoute
      (fun f => if f = "ok.mp3" then some 5000 else none) "missing.mp3"
        = .notFound :=
  ⟨audio_routes_size_check.1
      (fun f => if f = "ok.mp3" then some 5000 else none)
      "generated/audio/ok.mp3" 5000 (by decide),
   audio_routes_size_check.2.1
      (fun f => if f = "ok.mp3" then some 5000 else none) "missing.mp3"
      (by decide)⟩

/-- Claim C8, counterexample.  The claim states that for the batch
export of items A, B, C where B's audio generation fails, the archive
holds 3 images and 2 audio files AND the failure is reported in the
final summary.  The archive part holds, but `downloadBatch` returns no
summary at all: the per-card audio catch block only logs to the console
and the function resolves with no failure information, so nothing
reports B's failure. -/
theorem batch_failure_reported_refuted :
    ¬ ((Batch.downloadBatch [⟨"A", "a"⟩, ⟨"B", "b"⟩, ⟨"C", "c"⟩]
          (fun c => c.thai != "B")).images.length = 3 ∧
       (Batch.downloadBatch [⟨"A", "a"⟩, ⟨"B", "b"⟩, ⟨"C", "c"⟩]
          (fun c => c.thai != "B")).audios.length = 2 ∧
       (Batch.downloadBatch [⟨"A", "a"⟩, ⟨"B", "b"⟩, ⟨"C", "c"⟩]
          (fun c => c.thai != "B")).reportedFailures ≠ []) := by decide

/-- Claim C8, amended.  A failing item's audio does not abort the client
batch export: with items A, B, C and B's audio failing, the archive
holds all 3 images and the 2 successful audio files, but no failure
summary reaches the caller.  The server-side `/api/cards/generate`
endpoint is the path that reports failures: its results mark exactly B
as failed (with its two audio errors) while A and C succeed. -/
theorem batch_export_and_generate_behaviour :
    Batch.downloadBatch [⟨"A", "a"⟩, ⟨"B", "b"⟩, ⟨"C", "c"⟩]
        (fun c => c.thai != "B")
      = ⟨["card_1_A.png", "card_2_B.png", "card_3_C.png"],
         ["card_1_example_A.mp3", "card_3_example_C.mp3"],
         ["生成卡片 1 图片...", "完成卡片 1 图片", "生成卡片 1 例句语音...",
          "生成卡片 2 图片...", "完成卡片 2 图片", "生成卡片 2 例句语音...",
          "生成卡片 3 图片...", "完成卡片 3 图片", "生成卡片 3 例句语音...",
          "正在打包文件...", "下载完成！"],
         []⟩ ∧
    ServerRoutes.cardsGenerate [1, 2, 3] (fun id => ⟨true, id != 2, id != 2⟩)
      = [⟨1, true, 0⟩, ⟨2, false, 2⟩, ⟨3, true, 0⟩] ∧
    ((ServerRoutes.cardsGenerate [1, 2, 3]
        (fun id => ⟨true, id != 2, id != 2⟩)).filter
          (fun x => !x.success)).length = 1 := by decide

/-- Claim C9, confirmed.  `stopAllAudio` is idempotent and, on an idle
state (no current handle, nothing audible, synthesis cancelled), a
no-op producing no error — in both the audio.ts version and the
part_009 variant. -/
theorem stopAll_idempotent_idle :
    (∀ s : Playback.AudioState,
      Playback.stopAllState (Playback.stopAllState s) = Playback.stopAllState s) ∧
    (∀ p : List Nat,
      Playback.stopAllState ⟨[], none, false, p⟩ = ⟨[], none, false, p⟩) ∧
    (∀ s : Playback.AudioState09,
      Playback.stopAllAudio09 (Playback.stopAllAudio09 s)
        = Playback.stopAllAudio09 s) ∧
    Playback.stopAllAudio09 ⟨[], none, []⟩ = ⟨[], none, []⟩ := by
  refine ⟨fun s => rfl, fun p => rfl, fun s => ?_, rfl⟩
  simp only [Playback.stopAllAudio09]
  congr 1
  rw [List.filter_eq_self]
  intro a _
  simp

/-- A cache entry survives any later `generateAudio` call: entries are
only consed onto the cache after a lookup miss, so an existing key is
never shadowed. -/
theorem lookup_after_call (c : List (String × String)) (key r : String)
    (hc : c.lookup key = some r) (t l : String) (e : ClientAudio.GenEnv) :
    (ClientAudio.generateAudio c t l e).cache.lookup key = some r := by
  unfold ClientAudio.generateAudio
  cases hl : c.lookup (t ++ "_" ++ l) with
  | some u => simpa [hl] using hc
  | none =>
    cases hs : e.submit with
    | none => simpa [hl, hs] using hc
    | some id =>
      cases hp : (ClientAudio.pollForAudioId id e.poll 10).result with
      | none => simpa [hl, hs, hp] using hc
      | some aid =>
        have hk : (key == t ++ "_" ++ l) = false := by
          cases hkk : (key == t ++ "_" ++ l)
          · rfl
          · exact absurd (eq_of_beq hkk ▸ hc) (by rw [hl]; simp)
        simp [hl, hs, hp, List.lookup, hk, hc]

/-- A cache entry survives any list of later `generateAudio` calls. -/
theorem lookup_after_evolve (c : List (String × String)) (key r : String)
    (hc : c.lookup key = some r) :
    ∀ others : List (String × String × ClientAudio.GenEnv),
      (ClientAudio.genEvolve c others).lookup key = some r := by
  intro others
  induction others generalizing c with
  | nil => exact hc
  | cons x rest ih =>
    rcases x with ⟨t, l, e⟩
    exact ih _ (lookup_after_call c key r hc t l e)

/-- A successful `generateAudio` call leaves its URL in the cache under
the key text ++ "_" ++ language. -/
theorem gen_success_caches (cache : List (String × String)) (text lang : String)
    (env : ClientAudio.GenEnv) (r : String) (c : List (String × String)) (n : Nat)
    (h : ClientAudio.generateAudio cache text lang env = ⟨some r, c, n⟩) :
    c.lookup (text ++ "_" ++ lang) = some r := by
  cases hl : cache.lookup (text ++ "_" ++ lang) with
  | some u =>
    simp only [ClientAudio.generateAudio, hl, ClientAudio.GenCallResult.mk.injEq,
      Option.some.injEq] at h
    obtain ⟨h1, h2, h3⟩ := h
    subst h1 h2
    exact hl
  | none =>
    cases hs : env.submit with
    | none => simp [ClientAudio.generateAudio, hl, hs] at h
    | some id =>
      cases hp : (ClientAudio.pollForAudioId id env.poll 10).result with
      | none => simp [ClientAudio.generateAudio, hl, hs, hp] at h
      | some aid =>
        simp only [ClientAudio.generateAudio, hl, hs, hp,
          ClientAudio.GenCallResult.mk.injEq, Option.some.injEq] at h
        obtain ⟨h1, h2, h3⟩ := h
        subst h1 h2
        simp [List.lookup]

/-- Claim C10, confirmed.  `generateAudio` memoizes by the (text,
language) pair: once a call succeeds and returns a proxy URL, every
subsequent call with the same text and language — after any number of
intervening `generateAudio` calls — returns the identical cached URL
with zero network requests (no new submission, no polling). -/
theorem generateAudio_memoizes :
    ∀ (cache : List (String × String)) (text lang : String)
      (env : ClientAudio.GenEnv) (r : String) (c : List (String × String)) (n : Nat),
    ClientAudio.generateAudio cache text lang env = ⟨some r, c, n⟩ →
    ∀ (others : List (String × String × ClientAudio.GenEnv))
      (env2 : ClientAudio.GenEnv),
      ClientAudio.generateAudio (ClientAudio.genEvolve c others) text lang env2
        = ⟨some r, ClientAudio.genEvolve c others, 0⟩ := by
  intro cache text lang env r c n h others env2
  have hck := gen_success_caches cache text lang env r c n h
  have hev := lookup_after_evolve c (text ++ "_" ++ lang) r hck others
  simp only [ClientAudio.generateAudio, hev]

/-- Witness for the C10 theorem: one successful generation for
("hello", "th-TH"), one intervening call for another text, then a
repeat call that returns the cached proxy URL with zero requests even
though its own network environment would fail. -/
theorem generateAudio_memoizes_witness :
    ClientAudio.generateAudio
        (ClientAudio.genEvolve [("hello_th-TH", "/api/audio/download/id1")]
          [("x", "y", ⟨none, fun _ => .pending⟩)])
        "hello" "th-TH" ⟨none, fun _ => .throws⟩
      = ⟨some "/api/audio/download/id1",
         ClientAudio.genEvolve [("hello_th-TH", "/api/audio/download/id1")]
           [("x", "y", ⟨none, fun _ => .pending⟩)], 0⟩ :=
  generateAudio_memoizes [] "hello" "th-TH" ⟨some "id1", fun _ => .done⟩
    "/api/audio/download/id1" [("hello_th-TH", "/api/audio/download/id1")] 2
    (by decide) [("x", "y", ⟨none, fun _ => .pending⟩)] ⟨none, fun _ => .throws⟩
